import Mathlib

/-!
Shallow embedding of the transaction-execution adapter in
`language/diem-vm/src/diem_vm.rs` and `language/diem-vm/src/system_module_names.rs`
(the 0L fork of the Diem VM adapter), together with theorems settling the
spec claims about gas admission, prologue selection, epilogue error policy,
change-set conversion, global write gas accounting, and the in-band
standard-library upgrade.

Machine integers (`u64`) are modelled as `Nat`: every arithmetic operation the
embedded code performs is a comparison or a product of configuration-sized
values, and the source performs no wrapping arithmetic on them.
Byte blobs are `List Nat`.  Collaborator code that lives outside `src/`
(the Move VM engine, `errors.rs`, `GasStatus`, `WriteSetMut::freeze`,
`TransactionMetadata` accessors, bcs, sha3) is either taken as an abstract
parameter or modelled from the spec, with a doc comment saying so.
-/

namespace Libra

/-- The status codes of `diem_types::vm_status::StatusCode` that the embedded
adapter code can produce. -/
inductive StatusCode where
  | EXCEEDED_MAX_TRANSACTION_SIZE
  | MAX_GAS_UNITS_EXCEEDS_MAX_GAS_UNITS_BOUND
  | MAX_GAS_UNITS_BELOW_MIN_TRANSACTION_GAS_UNITS
  | GAS_UNIT_PRICE_BELOW_MIN_BOUND
  | GAS_UNIT_PRICE_ABOVE_MAX_BOUND
  | VM_STARTUP_FAILURE
  | DATA_FORMAT_ERROR
  | EVENT_KEY_MISMATCH
  | OUT_OF_GAS
  | CURRENCY_INFO_DOES_NOT_EXIST
  | RESOURCE_DOES_NOT_EXIST
  | UNEXPECTED_ERROR_FROM_KNOWN_MOVE_FUNCTION
  | UNKNOWN_INVARIANT_VIOLATION_ERROR
  deriving DecidableEq, Repr

/-- The fields of `move_core_types::gas_schedule::GasConstants` that
`check_gas` and `charge_global_write_gas_usage` read.  (The source reads them
through `CostTable.gas_constants`; the wrapper is flattened away.) -/
structure GasConstants where
  max_transaction_size_in_bytes : Nat
  maximum_number_of_gas_units : Nat
  min_price_per_gas_unit : Nat
  max_price_per_gas_unit : Nat
  global_memory_per_byte_write_cost : Nat
  default_account_size : Nat
  deriving DecidableEq, Repr

/-- `TransactionMetadata` (crate module `transaction_metadata.rs`, not under
`src/`): the immutable per-transaction snapshot whose accessors `diem_vm.rs`
reads.  Fields follow the spec's data model (sender, sequence number, gas
price, max gas, expiration, chain id, auth-key preimage, secondary signers and
their key preimages, transaction size, script hash). -/
structure TransactionMetadata where
  sender : Nat
  sequence_number : Nat
  gas_unit_price : Nat
  max_gas_amount : Nat
  expiration_timestamp_secs : Nat
  chain_id : Nat
  authentication_key_preimage : List Nat
  secondary_signers : List Nat
  secondary_authentication_key_preimages : List (List Nat)
  transaction_size : Nat
  script_hash : List Nat
  deriving DecidableEq, Repr

/-- Modelled from the spec: `TransactionMetadata::is_multi_agent` (accessor not
under `src/`) — "the transaction itself declares secondary signers". -/
def TransactionMetadata.is_multi_agent (txn : TransactionMetadata) : Bool :=
  !txn.secondary_signers.isEmpty

/-- `DiemVMImpl::check_gas` (diem_vm.rs:129-210).  `gasSchedule` is the config
snapshot's `Option`-held gas schedule (`get_gas_schedule` fails with
`VM_STARTUP_FAILURE` when absent); `intrinsicFee` abstracts
`to_external_units (calculate_intrinsic_gas size gas_constants)`, the
schedule-defined intrinsic-gas function of the transaction's byte length
(defined in `move_vm_types`, outside `src/`). -/
def check_gas (gasSchedule : Option GasConstants)
    (intrinsicFee : Nat → GasConstants → Nat)
    (txn : TransactionMetadata) : Except StatusCode Unit :=
  match gasSchedule with
  | none => .error .VM_STARTUP_FAILURE
  | some gc =>
    if txn.transaction_size > gc.max_transaction_size_in_bytes then
      .error .EXCEEDED_MAX_TRANSACTION_SIZE
    else if txn.max_gas_amount > gc.maximum_number_of_gas_units then
      .error .MAX_GAS_UNITS_EXCEEDS_MAX_GAS_UNITS_BOUND
    else if txn.max_gas_amount < intrinsicFee txn.transaction_size gc then
      .error .MAX_GAS_UNITS_BELOW_MIN_TRANSACTION_GAS_UNITS
    else if txn.gas_unit_price < gc.min_price_per_gas_unit then
      .error .GAS_UNIT_PRICE_BELOW_MIN_BOUND
    else if txn.gas_unit_price > gc.max_price_per_gas_unit then
      .error .GAS_UNIT_PRICE_ABOVE_MAX_BOUND
    else .ok ()

/-- Claim C1: with a loaded gas schedule, `check_gas` evaluates the five
checks in the fixed order size, max-gas bound, minimum intrinsic gas, minimum
price, maximum price, returning on the first violated rule its distinct status
code without evaluating later rules, and `Ok` when all five pass. -/
theorem check_gas_fail_fast (gc : GasConstants)
    (intrinsicFee : Nat → GasConstants → Nat) (txn : TransactionMetadata) :
    (check_gas (some gc) intrinsicFee txn = .error .EXCEEDED_MAX_TRANSACTION_SIZE
      ↔ txn.transaction_size > gc.max_transaction_size_in_bytes)
    ∧ (check_gas (some gc) intrinsicFee txn
        = .error .MAX_GAS_UNITS_EXCEEDS_MAX_GAS_UNITS_BOUND
      ↔ txn.transaction_size ≤ gc.max_transaction_size_in_bytes
        ∧ txn.max_gas_amount > gc.maximum_number_of_gas_units)
    ∧ (check_gas (some gc) intrinsicFee txn
        = .error .MAX_GAS_UNITS_BELOW_MIN_TRANSACTION_GAS_UNITS
      ↔ txn.transaction_size ≤ gc.max_transaction_size_in_bytes
        ∧ txn.max_gas_amount ≤ gc.maximum_number_of_gas_units
        ∧ txn.max_gas_amount < intrinsicFee txn.transaction_size gc)
    ∧ (check_gas (some gc) intrinsicFee txn
        = .error .GAS_UNIT_PRICE_BELOW_MIN_BOUND
      ↔ txn.transaction_size ≤ gc.max_transaction_size_in_bytes
        ∧ txn.max_gas_amount ≤ gc.maximum_number_of_gas_units
        ∧ intrinsicFee txn.transaction_size gc ≤ txn.max_gas_amount
        ∧ txn.gas_unit_price < gc.min_price_per_gas_unit)
    ∧ (check_gas (some gc) intrinsicFee txn
        = .error .GAS_UNIT_PRICE_ABOVE_MAX_BOUND
      ↔ txn.transaction_size ≤ gc.max_transaction_size_in_bytes
        ∧ txn.max_gas_amount ≤ gc.maximum_number_of_gas_units
        ∧ intrinsicFee txn.transaction_size gc ≤ txn.max_gas_amount
        ∧ gc.min_price_per_gas_unit ≤ txn.gas_unit_price
        ∧ txn.gas_unit_price > gc.max_price_per_gas_unit)
    ∧ (check_gas (some gc) intrinsicFee txn = .ok ()
      ↔ txn.transaction_size ≤ gc.max_transaction_size_in_bytes
        ∧ txn.max_gas_amount ≤ gc.maximum_number_of_gas_units
        ∧ intrinsicFee txn.transaction_size gc ≤ txn.max_gas_amount
        ∧ gc.min_price_per_gas_unit ≤ txn.gas_unit_price
        ∧ txn.gas_unit_price ≤ gc.max_price_per_gas_unit) := by
  simp only [check_gas]
  split_ifs with h1 h2 h3 h4 h5 <;> simp_all

/-- Closed witness for `check_gas_fail_fast`: a concrete 2048-byte
transaction against a 1024-byte limit is rejected with
`EXCEEDED_MAX_TRANSACTION_SIZE`. -/
theorem check_gas_fail_fast_witness :
    check_gas
        (some { max_transaction_size_in_bytes := 1024,
                maximum_number_of_gas_units := 100,
                min_price_per_gas_unit := 0,
                max_price_per_gas_unit := 10,
                global_memory_per_byte_write_cost := 1,
                default_account_size := 600 })
        (fun _ _ => 1)
        { sender := 1, sequence_number := 0, gas_unit_price := 1,
          max_gas_amount := 50, expiration_timestamp_secs := 0, chain_id := 1,
          authentication_key_preimage := [], secondary_signers := [],
          secondary_authentication_key_preimages := [],
          transaction_size := 2048, script_hash := [] }
      = .error .EXCEEDED_MAX_TRANSACTION_SIZE := by
  exact (check_gas_fail_fast
    { max_transaction_size_in_bytes := 1024,
      maximum_number_of_gas_units := 100,
      min_price_per_gas_unit := 0,
      max_price_per_gas_unit := 10,
      global_memory_per_byte_write_cost := 1,
      default_account_size := 600 }
    (fun _ _ => 1)
    { sender := 1, sequence_number := 0, gas_unit_price := 1,
      max_gas_amount := 50, expiration_timestamp_secs := 0, chain_id := 1,
      authentication_key_preimage := [], secondary_signers := [],
      secondary_authentication_key_preimages := [],
      transaction_size := 2048, script_hash := [] }).1.mpr (by decide)

/-- The Move values `diem_vm.rs` serializes as system-call arguments
(`move_core_types::value::MoveValue`, restricted to the constructors used). -/
inductive MoveValue where
  | signer (addr : Nat)
  | u64 (n : Nat)
  | u8 (n : Nat)
  | boolean (b : Bool)
  | vector_u8 (bytes : List Nat)
  | vector_address (addrs : List Nat)
  | vector (vs : List MoveValue)

/-- `DIEM_VERSION_3`, the multi-agent protocol-version threshold
(`diem_types::on_chain_config`); versions are their major number. -/
def DIEM_VERSION_3 : Nat := 3

/-- `DiemVMImpl::run_script_prologue` (diem_vm.rs:214-279), embedded as the
choice of prologue entry point and serialized argument list it passes to
`session.execute_function` on the account module.  `version` is the config
snapshot's `Option`-held protocol version (`get_diem_version` fails with
`VM_STARTUP_FAILURE` when absent); `sha3` abstracts
`HashValue::sha3_256_of` (diem_crypto, outside `src/`). -/
def run_script_prologue (version : Option Nat) (sha3 : List Nat → List Nat)
    (txn : TransactionMetadata) : Except StatusCode (String × List MoveValue) :=
  match version with
  | none => .error .VM_STARTUP_FAILURE
  | some v =>
    let secondary_public_key_hashes : List MoveValue :=
      txn.secondary_authentication_key_preimages.map
        (fun preimage => MoveValue.vector_u8 (sha3 preimage))
    if v ≥ DIEM_VERSION_3 ∧ txn.is_multi_agent then
      .ok ("multi_agent_script_prologue",
        [MoveValue.signer txn.sender,
         MoveValue.u64 txn.sequence_number,
         MoveValue.vector_u8 txn.authentication_key_preimage,
         MoveValue.vector_address txn.secondary_signers,
         MoveValue.vector secondary_public_key_hashes,
         MoveValue.u64 txn.gas_unit_price,
         MoveValue.u64 txn.max_gas_amount,
         MoveValue.u64 txn.expiration_timestamp_secs,
         MoveValue.u8 txn.chain_id])
    else
      .ok ("script_prologue",
        [MoveValue.signer txn.sender,
         MoveValue.u64 txn.sequence_number,
         MoveValue.vector_u8 txn.authentication_key_preimage,
         MoveValue.u64 txn.gas_unit_price,
         MoveValue.u64 txn.max_gas_amount,
         MoveValue.u64 txn.expiration_timestamp_secs,
         MoveValue.u8 txn.chain_id,
         MoveValue.vector_u8 txn.script_hash])

/-- Claim C4: `run_script_prologue` invokes `multi_agent_script_prologue`
(with arguments sender, sequence number, auth-key preimage, secondary-signer
addresses, secondary-key hashes, gas price, max gas, expiration, chain id)
iff the protocol version is ≥ DIEM_VERSION_3 and the transaction declares
secondary signers; in every other case it invokes `script_prologue` (with
arguments sender, sequence number, auth-key preimage, gas price, max gas,
expiration, chain id, script hash). -/
theorem run_script_prologue_selection (v : Nat) (sha3 : List Nat → List Nat)
    (txn : TransactionMetadata) :
    (v ≥ DIEM_VERSION_3 ∧ txn.secondary_signers ≠ [] →
      run_script_prologue (some v) sha3 txn
        = .ok ("multi_agent_script_prologue",
            [MoveValue.signer txn.sender,
             MoveValue.u64 txn.sequence_number,
             MoveValue.vector_u8 txn.authentication_key_preimage,
             MoveValue.vector_address txn.secondary_signers,
             MoveValue.vector (txn.secondary_authentication_key_preimages.map
               (fun preimage => MoveValue.vector_u8 (sha3 preimage))),
             MoveValue.u64 txn.gas_unit_price,
             MoveValue.u64 txn.max_gas_amount,
             MoveValue.u64 txn.expiration_timestamp_secs,
             MoveValue.u8 txn.chain_id]))
    ∧ (v < DIEM_VERSION_3 ∨ txn.secondary_signers = [] →
      run_script_prologue (some v) sha3 txn
        = .ok ("script_prologue",
            [MoveValue.signer txn.sender,
             MoveValue.u64 txn.sequence_number,
             MoveValue.vector_u8 txn.authentication_key_preimage,
             MoveValue.u64 txn.gas_unit_price,
             MoveValue.u64 txn.max_gas_amount,
             MoveValue.u64 txn.expiration_timestamp_secs,
             MoveValue.u8 txn.chain_id,
             MoveValue.vector_u8 txn.script_hash])) := by
  constructor
  · rintro ⟨hv, hs⟩
    simp [run_script_prologue, TransactionMetadata.is_multi_agent, hv, hs,
      List.isEmpty_iff]
  · rintro (hv | hs)
    · simp [run_script_prologue, TransactionMetadata.is_multi_agent]
      intro h
      omega
    · simp [run_script_prologue, TransactionMetadata.is_multi_agent, hs]

/-- Closed witness for `run_script_prologue_selection`: a concrete multi-agent
transaction at version 3 selects the multi-agent prologue, and the same
transaction at version 2 selects the single-agent prologue. -/
theorem run_script_prologue_selection_witness :
    (run_script_prologue (some 3) (fun _ => [9])
        { sender := 1, sequence_number := 2, gas_unit_price := 3,
          max_gas_amount := 4, expiration_timestamp_secs := 5, chain_id := 6,
          authentication_key_preimage := [7], secondary_signers := [8],
          secondary_authentication_key_preimages := [[1]],
          transaction_size := 10, script_hash := [11] }
      = .ok ("multi_agent_script_prologue",
          [MoveValue.signer 1, MoveValue.u64 2, MoveValue.vector_u8 [7],
           MoveValue.vector_address [8],
           MoveValue.vector [MoveValue.vector_u8 [9]],
           MoveValue.u64 3, MoveValue.u64 4, MoveValue.u64 5,
           MoveValue.u8 6]))
    ∧ (run_script_prologue (some 2) (fun _ => [9])
        { sender := 1, sequence_number := 2, gas_unit_price := 3,
          max_gas_amount := 4, expiration_timestamp_secs := 5, chain_id := 6,
          authentication_key_preimage := [7], secondary_signers := [8],
          secondary_authentication_key_preimages := [[1]],
          transaction_size := 10, script_hash := [11] }
      = .ok ("script_prologue",
          [MoveValue.signer 1, MoveValue.u64 2, MoveValue.vector_u8 [7],
           MoveValue.u64 3, MoveValue.u64 4, MoveValue.u64 5,
           MoveValue.u8 6, MoveValue.vector_u8 [11]])) := by
  constructor
  · exact (run_script_prologue_selection 3 (fun _ => [9]) _).1
      ⟨by decide, by decide⟩
  · exact (run_script_prologue_selection 2 (fun _ => [9]) _).2
      (Or.inl (by decide))

/-- `DiemVMImpl::tick_oracle_consensus` (diem_vm.rs:473-496): the engine call
`Oracle::check_upgrade` is made, a failure is logged (`info!`) and the error
is then returned to the caller via `?`.  `engineResult` abstracts the result
of `session.execute_function` on `ORACLE_MODULE`/`CHECK_UPGRADE`. -/
def tick_oracle_consensus (engineResult : Except StatusCode Unit) :
    Except StatusCode Unit :=
  match engineResult with
  | .error e => .error e
  | .ok _ => .ok ()

/-- Modelled from the spec: the block-metadata transaction processing that
calls `tick_oracle_consensus` (the caller is not under `src/`) — "failure to
tick is logged and does not abort the block (best-effort)": the tick result is
discarded and the rest of block-metadata processing proceeds unaffected. -/
def process_block_metadata (tickEngineResult : Except StatusCode Unit)
    (rest : Except StatusCode Unit) : Except StatusCode Unit :=
  let _tick := tick_oracle_consensus tickEngineResult
  rest

/-- Claim C3: a failing tick into the governance module does not abort
block-metadata processing — `tick_oracle_consensus` reports the engine error
to its caller, and the (spec-modelled) block-metadata processing ignores the
tick outcome, so its result equals the result of the rest of processing. -/
theorem tick_failure_does_not_abort_block (e : StatusCode)
    (rest : Except StatusCode Unit) :
    tick_oracle_consensus (.error e) = .error e
    ∧ process_block_metadata (.error e) rest = rest
    ∧ process_block_metadata (.ok ()) rest = rest := by
  exact ⟨rfl, rfl, rfl⟩

/-- Modelled from the spec: the invariant-violation (fatal) class of status
codes among those the adapter produces — the "distinguished status that a
higher layer should treat as unsafe-to-continue", as opposed to user-visible
rejections. -/
def StatusCode.isInvariantViolation : StatusCode → Bool
  | .UNEXPECTED_ERROR_FROM_KNOWN_MOVE_FUNCTION => true
  | .UNKNOWN_INVARIANT_VIOLATION_ERROR => true
  | _ => false

/-- Modelled from the spec: `errors::expect_only_successful_execution`
(errors.rs, not under `src/`) — on the failure-epilogue path "any error at
all is treated as an invariant violation": every engine error is replaced by
the invariant-violation status `UNEXPECTED_ERROR_FROM_KNOWN_MOVE_FUNCTION`,
never surfaced as a user-visible rejection. -/
def expect_only_successful_execution (_e : StatusCode) :
    Except StatusCode Unit :=
  .error .UNEXPECTED_ERROR_FROM_KNOWN_MOVE_FUNCTION

/-- `DiemVMImpl::run_failure_epilogue` (diem_vm.rs:365-399), embedded as its
error translation: the engine result of the `epilogue` call is passed through
`expect_only_successful_execution` on failure.  `engineResult` abstracts the
result of `session.execute_function` on the account module's `epilogue`. -/
def run_failure_epilogue (engineResult : Except StatusCode Unit) :
    Except StatusCode Unit :=
  match engineResult with
  | .ok _ => .ok ()
  | .error e => expect_only_successful_execution e

/-- Claim C5: every engine error from the epilogue call inside
`run_failure_epilogue` is translated into an invariant-violation status,
never a user-visible rejection. -/
theorem run_failure_epilogue_fatal (e : StatusCode) :
    run_failure_epilogue (.error e)
      = .error .UNEXPECTED_ERROR_FROM_KNOWN_MOVE_FUNCTION
    ∧ ∃ s, run_failure_epilogue (.error e) = .error s
        ∧ s.isInvariantViolation = true := by
  exact ⟨rfl, .UNEXPECTED_ERROR_FROM_KNOWN_MOVE_FUNCTION, rfl, rfl⟩

/-- The slice of `move_vm_types::gas_schedule::GasStatus` the adapter reads
and writes: the remaining gas balance and the active cost table's gas
constants. -/
structure GasStatus where
  remaining_gas : Nat
  gas_constants : GasConstants
  deriving DecidableEq, Repr

/-- Modelled from the spec: `GasStatus::deduct_gas` (move_vm_types, not under
`src/`) — the charge is deducted from the live meter, and "deduction failure
(insufficient remaining gas) surfaces as an out-of-gas VM status". -/
def GasStatus.deduct_gas (gs : GasStatus) (amount : Nat) :
    Except StatusCode GasStatus :=
  if gs.remaining_gas < amount then .error .OUT_OF_GAS
  else .ok { gs with remaining_gas := gs.remaining_gas - amount }

/-- `charge_global_write_gas_usage` (diem_vm.rs:675-690): deducts
`num_mutated * (global_memory_per_byte_write_cost * default_account_size)`
from the gas meter.  `num_mutated` abstracts
`session.num_mutated_accounts(sender)`, the engine's count of distinct
accounts mutated in the session for the given sender (excluding the sender,
per the engine interface). -/
def charge_global_write_gas_usage (gs : GasStatus) (num_mutated : Nat) :
    Except StatusCode GasStatus :=
  let total_cost := num_mutated *
    (gs.gas_constants.global_memory_per_byte_write_cost *
      gs.gas_constants.default_account_size)
  gs.deduct_gas total_cost

/-- Modelled from the spec: the success path charges global write gas
"after payload execution, before the success epilogue", and a failed
deduction aborts "before the epilogue runs".  Returns the gas result paired
with whether the success epilogue was reached. -/
def charge_then_success_epilogue (gs : GasStatus) (num_mutated : Nat) :
    Except StatusCode GasStatus × Bool :=
  match charge_global_write_gas_usage gs num_mutated with
  | .ok gsNext => (.ok gsNext, true)
  | .error e => (.error e, false)

/-- Claim C6: `charge_global_write_gas_usage` deducts exactly
`num_mutated × global_memory_per_byte_write_cost × default_account_size`
from the meter, independent of bytes written; when the remaining gas is
smaller than this charge the result is the out-of-gas status and the success
epilogue is not reached. -/
theorem charge_global_write_gas_usage_spec (gs : GasStatus)
    (num_mutated : Nat) :
    (num_mutated * (gs.gas_constants.global_memory_per_byte_write_cost *
        gs.gas_constants.default_account_size) ≤ gs.remaining_gas →
      charge_global_write_gas_usage gs num_mutated
        = .ok { gs with remaining_gas := gs.remaining_gas -
            num_mutated * (gs.gas_constants.global_memory_per_byte_write_cost *
              gs.gas_constants.default_account_size) }
      ∧ (charge_then_success_epilogue gs num_mutated).2 = true)
    ∧ (gs.remaining_gas <
        num_mutated * (gs.gas_constants.global_memory_per_byte_write_cost *
          gs.gas_constants.default_account_size) →
      charge_then_success_epilogue gs num_mutated
        = (.error .OUT_OF_GAS, false)) := by
  constructor
  · intro h
    have hlt : ¬ gs.remaining_gas <
        num_mutated * (gs.gas_constants.global_memory_per_byte_write_cost *
          gs.gas_constants.default_account_size) := not_lt.mpr h
    constructor
    · simp [charge_global_write_gas_usage, GasStatus.deduct_gas, hlt]
    · simp [charge_then_success_epilogue, charge_global_write_gas_usage,
        GasStatus.deduct_gas, hlt]
  · intro h
    simp [charge_then_success_epilogue, charge_global_write_gas_usage,
      GasStatus.deduct_gas, h]

/-- Closed witness for `charge_global_write_gas_usage_spec`: 3 mutated other
accounts with per-byte cost 1 and default account size 600 deduct exactly
1800 (2000 remaining becomes 200), and with only 1799 remaining the result is
out-of-gas and the success epilogue is not reached. -/
theorem charge_global_write_gas_usage_spec_witness :
    (charge_global_write_gas_usage
        { remaining_gas := 2000,
          gas_constants :=
            { max_transaction_size_in_bytes := 0,
              maximum_number_of_gas_units := 0,
              min_price_per_gas_unit := 0,
              max_price_per_gas_unit := 0,
              global_memory_per_byte_write_cost := 1,
              default_account_size := 600 } } 3
      = .ok { remaining_gas := 200,
              gas_constants :=
                { max_transaction_size_in_bytes := 0,
                  maximum_number_of_gas_units := 0,
                  min_price_per_gas_unit := 0,
                  max_price_per_gas_unit := 0,
                  global_memory_per_byte_write_cost := 1,
                  default_account_size := 600 } })
    ∧ (charge_then_success_epilogue
        { remaining_gas := 1799,
          gas_constants :=
            { max_transaction_size_in_bytes := 0,
              maximum_number_of_gas_units := 0,
              min_price_per_gas_unit := 0,
              max_price_per_gas_unit := 0,
              global_memory_per_byte_write_cost := 1,
              default_account_size := 600 } } 3
      = (.error .OUT_OF_GAS, false)) := by
  constructor
  · exact ((charge_global_write_gas_usage_spec _ 3).1 (by decide)).1
  · exact (charge_global_write_gas_usage_spec _ 3).2 (by decide)

/-- `diem_types::write_set::WriteOp`: a byte-blob assignment or a deletion. -/
inductive WriteOp where
  | Deletion
  | Value (blob : List Nat)
  deriving DecidableEq, Repr

/-- The resource/module discriminator of an access path, as computed by
`AccessPathCache::get_resource_path` (from a struct tag) and
`get_module_path` (from a module name). -/
inductive PathKind where
  | resource (tag : String)
  | module (name : String)
  deriving DecidableEq, Repr

/-- An access path: account address plus resource/module discriminator. -/
abbrev AccessPath := Nat × PathKind

/-- `move_core_types::effects::AccountChangeSet` — per-account modules and
resources, each mapping a name/tag to `Some blob` (upsert) or `None`
(deletion); `into_inner` returns `(modules, resources)`. -/
structure AccountChangeSet where
  modules : List (String × Option (List Nat))
  resources : List (String × Option (List Nat))
  deriving DecidableEq, Repr

/-- `move_core_types::effects::ChangeSet`: accounts with their change sets,
in iteration order. -/
abbrev MoveChangeSet := List (Nat × AccountChangeSet)

/-- A raw engine event `(guid, seq_num, ty_tag, blob)`
(`move_core_types::effects::Event`). -/
abbrev MoveEvent := List Nat × Nat × String × List Nat

/-- `diem_types::contract_event::ContractEvent`. -/
structure ContractEvent where
  key : List Nat
  sequence_number : Nat
  type_tag : String
  event_data : List Nat
  deriving DecidableEq, Repr

/-- The per-entry operation of the conversion loop:
`None => WriteOp::Deletion, Some(blob) => WriteOp::Value(blob)`. -/
def writeOpOf (blobOpt : Option (List Nat)) : WriteOp :=
  match blobOpt with
  | none => .Deletion
  | some blob => .Value blob

/-- The op list built by the loop of `convert_changeset_and_events_cached`
(diem_vm.rs:628-650): for every account, first its resources then its
modules, each paired with its computed access path. -/
def changeSetOps (changeset : MoveChangeSet) : List (AccessPath × WriteOp) :=
  changeset.flatMap fun p =>
    p.2.resources.map (fun q => ((p.1, PathKind.resource q.1), writeOpOf q.2))
    ++ p.2.modules.map (fun q => ((p.1, PathKind.module q.1), writeOpOf q.2))

/-- Modelled from the spec: `WriteSetMut::freeze` (diem_types::write_set, not
under `src/`) — "freezing the mutable op list into the final write-set fails
with a data-format error if paths are not unique". -/
def freezeWriteSet (ops : List (AccessPath × WriteOp)) :
    Except StatusCode (List (AccessPath × WriteOp)) :=
  if (ops.map Prod.fst).Nodup then .ok ops else .error .DATA_FORMAT_ERROR

/-- The event conversion of `convert_changeset_and_events_cached`
(diem_vm.rs:656-663): each guid must parse into an event key, a malformed one
fails the whole conversion with `EVENT_KEY_MISMATCH`.  `tryEventKey`
abstracts `EventKey::try_from` (diem_types, outside `src/`). -/
def convertEvents (tryEventKey : List Nat → Option (List Nat))
    (events : List MoveEvent) : Except StatusCode (List ContractEvent) :=
  match events with
  | [] => .ok []
  | (guid, seq_num, ty_tag, blob) :: rest =>
    match tryEventKey guid with
    | none => .error .EVENT_KEY_MISMATCH
    | some key =>
      match convertEvents tryEventKey rest with
      | .error e => .error e
      | .ok evs => .ok (⟨key, seq_num, ty_tag, blob⟩ :: evs)

/-- `convert_changeset_and_events_cached` (diem_vm.rs:622-666): build the op
list from the change-set, freeze it into a write-set, convert the events. -/
def convert_changeset_and_events_cached
    (tryEventKey : List Nat → Option (List Nat))
    (changeset : MoveChangeSet) (events : List MoveEvent) :
    Except StatusCode (List (AccessPath × WriteOp) × List ContractEvent) :=
  match freezeWriteSet (changeSetOps changeset) with
  | .error e => .error e
  | .ok ws =>
    match convertEvents tryEventKey events with
    | .error e => .error e
    | .ok evs => .ok (ws, evs)

/-- The number N of change-set entries carrying a new value (`Some blob`). -/
def numUpserts (changeset : MoveChangeSet) : Nat :=
  (changeset.flatMap fun p => p.2.resources ++ p.2.modules).countP
    (fun q => q.2.isSome)

/-- The number M of change-set entries with no new value (`None`). -/
def numDeletions (changeset : MoveChangeSet) : Nat :=
  (changeset.flatMap fun p => p.2.resources ++ p.2.modules).countP
    (fun q => q.2.isNone)

lemma countP_isSome_add_isNone (l : List (String × Option (List Nat))) :
    l.countP (fun q => q.2.isSome) + l.countP (fun q => q.2.isNone)
      = l.length := by
  induction l with
  | nil => rfl
  | cons q rest ih =>
    rcases q with ⟨nm, b⟩
    cases b <;> simp [List.countP_cons] <;> omega

lemma changeSetOps_length (changeset : MoveChangeSet) :
    (changeSetOps changeset).length
      = numUpserts changeset + numDeletions changeset := by
  induction changeset with
  | nil => rfl
  | cons p rest ih =>
    have hres := countP_isSome_add_isNone p.2.resources
    have hmod := countP_isSome_add_isNone p.2.modules
    simp only [changeSetOps, numUpserts, numDeletions, List.flatMap_cons,
      List.countP_append, List.length_append, List.length_map] at *
    omega

lemma mem_changeSetOps_resource (changeset : MoveChangeSet)
    (addr : Nat) (acct : AccountChangeSet) (tag : String)
    (blobOpt : Option (List Nat)) (hacct : (addr, acct) ∈ changeset)
    (hres : (tag, blobOpt) ∈ acct.resources) :
    ((addr, PathKind.resource tag), writeOpOf blobOpt)
      ∈ changeSetOps changeset := by
  simp only [changeSetOps, List.mem_flatMap]
  refine ⟨(addr, acct), hacct, ?_⟩
  simp only [List.mem_append, List.mem_map]
  exact Or.inl ⟨(tag, blobOpt), hres, rfl⟩

lemma mem_changeSetOps_module (changeset : MoveChangeSet)
    (addr : Nat) (acct : AccountChangeSet) (nm : String)
    (blobOpt : Option (List Nat)) (hacct : (addr, acct) ∈ changeset)
    (hmod : (nm, blobOpt) ∈ acct.modules) :
    ((addr, PathKind.module nm), writeOpOf blobOpt)
      ∈ changeSetOps changeset := by
  simp only [changeSetOps, List.mem_flatMap]
  refine ⟨(addr, acct), hacct, ?_⟩
  simp only [List.mem_append, List.mem_map]
  exact Or.inr ⟨(nm, blobOpt), hmod, rfl⟩

lemma convertEvents_error_eq (tryEventKey : List Nat → Option (List Nat))
    (events : List MoveEvent) (e : StatusCode)
    (h : convertEvents tryEventKey events = .error e) :
    e = .EVENT_KEY_MISMATCH := by
  induction events with
  | nil => simp [convertEvents] at h
  | cons ev rest ih =>
    rcases ev with ⟨guid, seq, ty, blob⟩
    simp only [convertEvents] at h
    cases hk : tryEventKey guid with
    | none =>
      rw [hk] at h
      exact (Except.error.inj h).symm
    | some k =>
      rw [hk] at h
      cases hrec : convertEvents tryEventKey rest with
      | error e2 =>
        rw [hrec] at h
        cases h
        exact ih hrec
      | ok evs =>
        rw [hrec] at h
        cases h

/-- Claim C2: when `convert_changeset_and_events_cached` succeeds on a
change-set with N upserts and M deletions, the write-set has exactly N+M
pairs with no duplicate access paths, every `None` entry appears as
`Deletion` and every `Some blob` entry as `Value blob` under the access path
computed from its address and discriminator; and it fails with
`DATA_FORMAT_ERROR` exactly when the collected paths are not unique. -/
theorem convert_changeset_and_events_spec
    (tryEventKey : List Nat → Option (List Nat))
    (changeset : MoveChangeSet) (events : List MoveEvent) :
    (∀ ws evs,
      convert_changeset_and_events_cached tryEventKey changeset events
        = .ok (ws, evs) →
      ws.length = numUpserts changeset + numDeletions changeset
      ∧ (ws.map Prod.fst).Nodup
      ∧ (∀ addr acct tag blobOpt, (addr, acct) ∈ changeset →
          (tag, blobOpt) ∈ acct.resources →
          ((addr, PathKind.resource tag), writeOpOf blobOpt) ∈ ws)
      ∧ (∀ addr acct nm blobOpt, (addr, acct) ∈ changeset →
          (nm, blobOpt) ∈ acct.modules →
          ((addr, PathKind.module nm), writeOpOf blobOpt) ∈ ws))
    ∧ (convert_changeset_and_events_cached tryEventKey changeset events
        = .error .DATA_FORMAT_ERROR
      ↔ ¬ ((changeSetOps changeset).map Prod.fst).Nodup)
    ∧ writeOpOf none = WriteOp.Deletion
    ∧ (∀ blob, writeOpOf (some blob) = WriteOp.Value blob) := by
  by_cases hnd : ((changeSetOps changeset).map Prod.fst).Nodup
  · refine ⟨?_, ?_, rfl, fun _ => rfl⟩
    · intro ws evs hok
      simp only [convert_changeset_and_events_cached, freezeWriteSet, hnd,
        if_true] at hok
      cases hev : convertEvents tryEventKey events with
      | error e => rw [hev] at hok; cases hok
      | ok cevs =>
        rw [hev] at hok
        cases hok
        exact ⟨changeSetOps_length changeset, hnd,
          fun addr acct tag blobOpt h1 h2 =>
            mem_changeSetOps_resource changeset addr acct tag blobOpt h1 h2,
          fun addr acct nm blobOpt h1 h2 =>
            mem_changeSetOps_module changeset addr acct nm blobOpt h1 h2⟩
    · constructor
      · intro herr
        simp only [convert_changeset_and_events_cached, freezeWriteSet, hnd,
          if_true] at herr
        cases hev : convertEvents tryEventKey events with
        | error e =>
          rw [hev] at herr
          cases herr
          exact absurd (convertEvents_error_eq tryEventKey events _ hev)
            (by intro h; cases h)
        | ok cevs => rw [hev] at herr; cases herr
      · intro h; exact absurd hnd h
  · refine ⟨?_, ?_, rfl, fun _ => rfl⟩
    · intro ws evs hok
      simp [convert_changeset_and_events_cached, freezeWriteSet, hnd] at hok
    · constructor
      · intro _; exact hnd
      · intro _
        simp [convert_changeset_and_events_cached, freezeWriteSet, hnd]

/-- Closed witness for `convert_changeset_and_events_spec`: a concrete
change-set with two upserts and one deletion converts to a 3-op write-set
with distinct paths containing the expected deletion. -/
theorem convert_changeset_and_events_spec_witness :
    ([((1, PathKind.resource "A"), WriteOp.Value [5]),
      ((1, PathKind.resource "B"), WriteOp.Deletion),
      ((1, PathKind.module "M"), WriteOp.Value [7])].length
      = numUpserts [(1, { modules := [("M", some [7])],
                          resources := [("A", some [5]), ("B", none)] })]
        + numDeletions [(1, { modules := [("M", some [7])],
                              resources := [("A", some [5]), ("B", none)] })])
    ∧ (([((1, PathKind.resource "A"), WriteOp.Value [5]),
         ((1, PathKind.resource "B"), WriteOp.Deletion),
         ((1, PathKind.module "M"), WriteOp.Value [7])].map Prod.fst).Nodup)
    ∧ ((1, PathKind.resource "B"), writeOpOf none)
        ∈ [((1, PathKind.resource "A"), WriteOp.Value [5]),
           ((1, PathKind.resource "B"), WriteOp.Deletion),
           ((1, PathKind.module "M"), WriteOp.Value [7])] := by
  have h := (convert_changeset_and_events_spec (fun g => some g)
    [(1, { modules := [("M", some [7])],
           resources := [("A", some [5]), ("B", none)] })] []).1
    [((1, PathKind.resource "A"), WriteOp.Value [5]),
     ((1, PathKind.resource "B"), WriteOp.Deletion),
     ((1, PathKind.module "M"), WriteOp.Value [7])] [] (by rfl)
  exact ⟨h.1, h.2.1,
    h.2.2.1 1 { modules := [("M", some [7])],
                resources := [("A", some [5]), ("B", none)] } "B" none
      (by decide) (by decide)⟩

/-- `move_core_types::language_storage::ModuleId`: address and module name. -/
structure SysModuleId where
  address : Nat
  name : String
  deriving DecidableEq, Repr

/-- `account_config::CORE_CODE_ADDRESS` (the privileged core code address,
0x1). -/
def CORE_CODE_ADDRESS : Nat := 1

/-- `ORACLE_MODULE` (system_module_names.rs:21-26). -/
def ORACLE_MODULE : SysModuleId := ⟨CORE_CODE_ADDRESS, "Oracle"⟩

/-- `UPGRADE_MODULE` (system_module_names.rs:27-32). -/
def UPGRADE_MODULE : SysModuleId := ⟨CORE_CODE_ADDRESS, "Upgrade"⟩

/-- `DIEMCONFIG_MODULE` (system_module_names.rs:34-39). -/
def DIEMCONFIG_MODULE : SysModuleId := ⟨CORE_CODE_ADDRESS, "DiemConfig"⟩

/-- `CHECK_UPGRADE` (system_module_names.rs:44-45). -/
def CHECK_UPGRADE : String := "check_upgrade"

/-- `RESET_PAYLOAD` (system_module_names.rs:52-53). -/
def RESET_PAYLOAD : String := "reset_payload"

/-- `UPGRADE_RECONFIG` (system_module_names.rs:55-56). -/
def UPGRADE_RECONFIG : String := "upgrade_reconfig"

/-- An engine call made by the upgrade coordinator inside the open session:
a module publish (`session.revise_module`) or a named function invocation
(`session.execute_function`). -/
inductive EngineCall where
  | revise_module (bytes : List Nat) (addr : Nat)
  | execute_function (moduleId : SysModuleId) (functionName : String)
      (args : List MoveValue)

/-- The engine's responses to the coordinator's calls (the Move VM session is
an external collaborator; its behavior is an abstract parameter). -/
structure EngineBehavior where
  revise_result : List Nat → Nat → Except StatusCode Unit
  execute_result : SysModuleId → String → List MoveValue → Except StatusCode Unit

/-- The observable outcome of `apply_stdlib_upgrade`: the ordered trace of
engine calls made, ending in normal return, a returned error status, or a
process abort (a Rust `expect` on a failed call). -/
inductive UpgradeOutcome where
  | ok (trace : List EngineCall)
  | err (trace : List EngineCall) (status : StatusCode)
  | aborted (trace : List EngineCall) (msg : String)

/-- `diem_types::ol_upgrade_payload::UpgradePayloadResource`: the on-chain
resource holding the pending serialized module set. -/
structure UpgradePayloadResource where
  payload : List Nat
  deriving DecidableEq, Repr

/-- `get_upgrade_payload` (diem_vm.rs:567-580).  `resourceBlob` is the state
view's blob for the `UpgradePayloadResource` under the root account (`none`
covers both `Ok(None)` and `Err(_)` of `get_resource`, which the source's
`if let Ok(Some(blob))` treats identically); `bcsDeserialize` abstracts
`bcs::from_bytes::<UpgradePayloadResource>` (outside `src/`). -/
def get_upgrade_payload
    (bcsDeserialize : List Nat → Option UpgradePayloadResource)
    (resourceBlob : Option (List Nat)) :
    Except StatusCode UpgradePayloadResource :=
  match resourceBlob with
  | some blob =>
    match bcsDeserialize blob with
    | none => .error .RESOURCE_DOES_NOT_EXIST
    | some x => .ok x
  | none => .error .CURRENCY_INFO_DOES_NOT_EXIST

/-- The publish loop of `apply_stdlib_upgrade` (diem_vm.rs:516-530): each
module of the imported stdlib is serialized
(`module.serialize(..).expect("Failed to serialize module")`) and published
under the core code address
(`session.revise_module(..).expect("Failed to publish module")`); a failed
`expect` is a process abort with that message.  Modules are opaque handles
(`String`); `serializeModule` abstracts `CompiledModule::serialize`. -/
def publishModules (engine : EngineBehavior)
    (serializeModule : String → Option (List Nat))
    (mods : List String) (trace : List EngineCall) : UpgradeOutcome :=
  match mods with
  | [] => .ok trace
  | m :: rest =>
    match serializeModule m with
    | none => .aborted trace "Failed to serialize module"
    | some bytes =>
      match engine.revise_result bytes CORE_CODE_ADDRESS with
      | .error _ =>
        .aborted (trace ++ [.revise_module bytes CORE_CODE_ADDRESS])
          "Failed to publish module"
      | .ok _ =>
        publishModules engine serializeModule rest
          (trace ++ [.revise_module bytes CORE_CODE_ADDRESS])

/-- `DiemVMImpl::apply_stdlib_upgrade` (diem_vm.rs:499-564): at the
hardcoded trigger round 2, read the upgrade payload; when it is non-empty,
publish every module of the imported stdlib, reset the payload via
`Upgrade::reset_payload` (`expect("Couldn't reset upgrade payload")`), then
emit `DiemConfig::upgrade_reconfig` (`expect("Couldn't emit reconfig
event")`).  `import_stdlib` abstracts
`diem_framework_releases::import_stdlib` (outside `src/`). -/
def apply_stdlib_upgrade (engine : EngineBehavior)
    (bcsDeserialize : List Nat → Option UpgradePayloadResource)
    (import_stdlib : List Nat → List String)
    (serializeModule : String → Option (List Nat))
    (resourceBlob : Option (List Nat))
    (round : Nat) (sender : Nat) : UpgradeOutcome :=
  if round = 2 then
    match get_upgrade_payload bcsDeserialize resourceBlob with
    | .error e => .err [] e
    | .ok res =>
      if res.payload.length > 0 then
        match publishModules engine serializeModule
            (import_stdlib res.payload) [] with
        | .ok trace1 =>
          match engine.execute_result UPGRADE_MODULE RESET_PAYLOAD
              [MoveValue.signer sender] with
          | .error _ =>
            .aborted (trace1 ++ [.execute_function UPGRADE_MODULE
                RESET_PAYLOAD [MoveValue.signer sender]])
              "Couldn't reset upgrade payload"
          | .ok _ =>
            match engine.execute_result DIEMCONFIG_MODULE UPGRADE_RECONFIG
                [] with
            | .error _ =>
              .aborted (trace1 ++ [.execute_function UPGRADE_MODULE
                  RESET_PAYLOAD [MoveValue.signer sender],
                  .execute_function DIEMCONFIG_MODULE UPGRADE_RECONFIG []])
                "Couldn't emit reconfig event"
            | .ok _ =>
              .ok (trace1 ++ [.execute_function UPGRADE_MODULE
                  RESET_PAYLOAD [MoveValue.signer sender],
                  .execute_function DIEMCONFIG_MODULE UPGRADE_RECONFIG []])
        | .err trace2 e => .err trace2 e
        | .aborted trace2 msg => .aborted trace2 msg
      else .ok []
  else .ok []

/-- Modelled from the spec: the observable effect of an engine call on the
pending payload resource — the dedicated reset entry point
`Upgrade::reset_payload` clears the payload, and no other call in the
upgrade trace writes it. -/
def payloadAfterCall (res : UpgradePayloadResource) (c : EngineCall) :
    UpgradePayloadResource :=
  match c with
  | .execute_function m f _ =>
    if m = UPGRADE_MODULE ∧ f = RESET_PAYLOAD then ⟨[]⟩ else res
  | _ => res

/-- The payload resource observed after a trace of engine calls. -/
def payloadAfterTrace (res : UpgradePayloadResource)
    (trace : List EngineCall) : UpgradePayloadResource :=
  trace.foldl payloadAfterCall res

lemma publishModules_all_ok (engine : EngineBehavior)
    (serFn : String → List Nat) (mods : List String)
    (trace : List EngineCall)
    (hrev : ∀ bytes addr, engine.revise_result bytes addr = .ok ()) :
    publishModules engine (fun m => some (serFn m)) mods trace
      = .ok (trace ++ mods.map
          (fun m => .revise_module (serFn m) CORE_CODE_ADDRESS)) := by
  induction mods generalizing trace with
  | nil => simp [publishModules]
  | cons m rest ih =>
    simp [publishModules, hrev, ih]

lemma payloadAfterTrace_revisions (res : UpgradePayloadResource)
    (mods : List String) (serFn : String → List Nat) :
    payloadAfterTrace res (mods.map
        (fun m => .revise_module (serFn m) CORE_CODE_ADDRESS)) = res := by
  induction mods with
  | nil => rfl
  | cons m rest ih => simpa [payloadAfterTrace, payloadAfterCall] using ih

/-- Whether an engine call is a publish of exactly `bytes` under the core
code address. -/
def isRevisionOf (bytes : List Nat) (c : EngineCall) : Bool :=
  match c with
  | .revise_module b a => b == bytes && a == CORE_CODE_ADDRESS
  | _ => false

lemma countP_revisions_eq_one (mods : List String)
    (serFn : String → List Nat) (m : String)
    (hnd : (mods.map serFn).Nodup) (hm : m ∈ mods) :
    (mods.map (fun mm =>
        EngineCall.revise_module (serFn mm) CORE_CODE_ADDRESS)).countP
      (isRevisionOf (serFn m)) = 1 := by
  induction mods with
  | nil => cases hm
  | cons a rest ih =>
    simp only [List.map_cons, List.nodup_cons] at hnd
    rcases hnd with ⟨hna, hndrest⟩
    rcases List.mem_cons.mp hm with rfl | hmrest
    · have h0 : (rest.map (fun mm =>
          EngineCall.revise_module (serFn mm) CORE_CODE_ADDRESS)).countP
            (isRevisionOf (serFn m)) = 0 := by
        rw [List.countP_eq_zero]
        intro c hc
        rcases List.mem_map.mp hc with ⟨mm, hmm, rfl⟩
        simp only [isRevisionOf, Bool.and_eq_true, beq_iff_eq]
        rintro ⟨heq, -⟩
        exact hna (heq ▸ List.mem_map_of_mem serFn hmm)
      simp [List.countP_cons, isRevisionOf, h0]
    · have hne : serFn a ≠ serFn m := by
        intro he
        exact hna (he ▸ List.mem_map_of_mem serFn hmrest)
      simp [List.countP_cons, isRevisionOf, hne, ih hndrest hmrest]

/-- Claim C7: at the trigger round with a non-empty payload and every engine
call succeeding, `apply_stdlib_upgrade` makes, in order, one publish of each
imported stdlib module under the core code address, then the
`Upgrade::reset_payload` call, then the `DiemConfig::upgrade_reconfig` call;
the payload resource is observed empty afterward, and (for distinct module
serializations) each module is published exactly once. -/
theorem apply_stdlib_upgrade_success_spec (engine : EngineBehavior)
    (bcsDeserialize : List Nat → Option UpgradePayloadResource)
    (import_stdlib : List Nat → List String) (serFn : String → List Nat)
    (blob : List Nat) (res : UpgradePayloadResource) (sender : Nat)
    (hdeser : bcsDeserialize blob = some res)
    (hnonempty : res.payload ≠ [])
    (hrev : ∀ bytes addr, engine.revise_result bytes addr = .ok ())
    (hexec : ∀ m f args, engine.execute_result m f args = .ok ()) :
    apply_stdlib_upgrade engine bcsDeserialize import_stdlib
        (fun m => some (serFn m)) (some blob) 2 sender
      = .ok ((import_stdlib res.payload).map
            (fun m => .revise_module (serFn m) CORE_CODE_ADDRESS)
          ++ [.execute_function UPGRADE_MODULE RESET_PAYLOAD
                [MoveValue.signer sender],
              .execute_function DIEMCONFIG_MODULE UPGRADE_RECONFIG []])
    ∧ payloadAfterTrace res
        ((import_stdlib res.payload).map
            (fun m => .revise_module (serFn m) CORE_CODE_ADDRESS)
          ++ [.execute_function UPGRADE_MODULE RESET_PAYLOAD
                [MoveValue.signer sender],
              .execute_function DIEMCONFIG_MODULE UPGRADE_RECONFIG []])
        = ⟨[]⟩
    ∧ (((import_stdlib res.payload).map serFn).Nodup →
        ∀ m ∈ import_stdlib res.payload,
          (((import_stdlib res.payload).map
              (fun mm => EngineCall.revise_module (serFn mm)
                CORE_CODE_ADDRESS)
            ++ [EngineCall.execute_function UPGRADE_MODULE RESET_PAYLOAD
                  [MoveValue.signer sender],
                EngineCall.execute_function DIEMCONFIG_MODULE
                  UPGRADE_RECONFIG []]).countP
            (isRevisionOf (serFn m))) = 1) := by
  refine ⟨?_, ?_, ?_⟩
  · have hlen : res.payload.length > 0 :=
      List.length_pos.mpr hnonempty
    simp [apply_stdlib_upgrade, get_upgrade_payload, hdeser, hlen,
      publishModules_all_ok engine serFn (import_stdlib res.payload) [] hrev,
      hexec]
  · rw [payloadAfterTrace, List.foldl_append]
    rw [show List.foldl payloadAfterCall res
        ((import_stdlib res.payload).map
          (fun m => .revise_module (serFn m) CORE_CODE_ADDRESS))
      = res from payloadAfterTrace_revisions res _ serFn]
    simp [payloadAfterCall, UPGRADE_MODULE, DIEMCONFIG_MODULE,
      RESET_PAYLOAD, UPGRADE_RECONFIG]
  · intro hnd m hm
    rw [List.countP_append,
      countP_revisions_eq_one (import_stdlib res.payload) serFn m hnd hm]
    rfl

/-- Closed witness for `apply_stdlib_upgrade_success_spec`: a concrete
two-module upgrade at round 2 publishes both modules, resets the payload and
emits the reconfiguration call, in that order. -/
theorem apply_stdlib_upgrade_success_spec_witness :
    apply_stdlib_upgrade
        ⟨fun _ _ => .ok (), fun _ _ _ => .ok ()⟩
        (fun _ => some ⟨[1]⟩) (fun _ => ["M1", "M2"])
        (fun m => some (if m = "M1" then [3] else [4])) (some [0]) 2 7
      = .ok ((["M1", "M2"].map
            (fun m => .revise_module (if m = "M1" then [3] else [4])
              CORE_CODE_ADDRESS))
          ++ [.execute_function UPGRADE_MODULE RESET_PAYLOAD
                [MoveValue.signer 7],
              .execute_function DIEMCONFIG_MODULE UPGRADE_RECONFIG []]) := by
  exact (apply_stdlib_upgrade_success_spec
    ⟨fun _ _ => .ok (), fun _ _ _ => .ok ()⟩
    (fun _ => some ⟨[1]⟩) (fun _ => ["M1", "M2"])
    (fun m => if m = "M1" then [3] else [4]) [0] ⟨[1]⟩ 7
    rfl (by decide) (fun _ _ => rfl) (fun _ _ _ => rfl)).1

/-- Claim C8: at the trigger round with the payload resource present but
empty, `apply_stdlib_upgrade` is a no-op returning success with an empty
call trace (no publish, no reset, no reconfiguration), so the resource state
is unchanged and a second run is the identical no-op; at any round other
than the trigger round it is a no-op regardless of the resource contents. -/
theorem apply_stdlib_upgrade_noop_spec (engine : EngineBehavior)
    (bcsDeserialize : List Nat → Option UpgradePayloadResource)
    (import_stdlib : List Nat → List String)
    (serializeModule : String → Option (List Nat))
    (blob : List Nat) (sender : Nat)
    (hdeser : bcsDeserialize blob = some ⟨[]⟩) :
    apply_stdlib_upgrade engine bcsDeserialize import_stdlib
        serializeModule (some blob) 2 sender = .ok []
    ∧ payloadAfterTrace ⟨[]⟩ [] = ⟨[]⟩
    ∧ (∀ round, round ≠ 2 → ∀ resourceBlob,
        apply_stdlib_upgrade engine bcsDeserialize import_stdlib
          serializeModule resourceBlob round sender = .ok []) := by
  refine ⟨?_, rfl, ?_⟩
  · simp [apply_stdlib_upgrade, get_upgrade_payload, hdeser]
  · intro round hround resourceBlob
    simp [apply_stdlib_upgrade, hround]

/-- Closed witness for `apply_stdlib_upgrade_noop_spec`: with a concrete
present-but-empty payload resource, round 2 is a success no-op, and round 3
is a no-op as well. -/
theorem apply_stdlib_upgrade_noop_spec_witness :
    apply_stdlib_upgrade
        ⟨fun _ _ => .ok (), fun _ _ _ => .ok ()⟩
        (fun _ => some ⟨[]⟩) (fun _ => ["M"]) (fun _ => some [1])
        (some [0]) 2 7 = .ok []
    ∧ apply_stdlib_upgrade
        ⟨fun _ _ => .ok (), fun _ _ _ => .ok ()⟩
        (fun _ => some ⟨[]⟩) (fun _ => ["M"]) (fun _ => some [1])
        (some [0]) 3 7 = .ok [] := by
  have h := apply_stdlib_upgrade_noop_spec
    ⟨fun _ _ => .ok (), fun _ _ _ => .ok ()⟩
    (fun _ => some ⟨[]⟩) (fun _ => ["M"]) (fun _ => some [1]) [0] 7 rfl
  exact ⟨h.1, h.2.2 3 (by decide) (some [0])⟩

/-- Counterexample to claim C9 as stated: with a concrete failing module
publish at the trigger round, `apply_stdlib_upgrade` does not propagate any
status out of the adapter — it escapes as an untyped process abort (the
`expect` panic "Failed to publish module"), so no higher layer receives a
distinguished fatal/invariant-violation status value. -/
theorem apply_stdlib_upgrade_publish_failure_counterexample :
    apply_stdlib_upgrade
        ⟨fun _ _ => .error .UNKNOWN_INVARIANT_VIOLATION_ERROR,
         fun _ _ _ => .ok ()⟩
        (fun _ => some ⟨[1]⟩) (fun _ => ["M"]) (fun _ => some [3])
        (some [0]) 2 7
      = .aborted [.revise_module [3] CORE_CODE_ADDRESS]
          "Failed to publish module"
    ∧ ¬ ∃ trace s,
        apply_stdlib_upgrade
            ⟨fun _ _ => .error .UNKNOWN_INVARIANT_VIOLATION_ERROR,
             fun _ _ _ => .ok ()⟩
            (fun _ => some ⟨[1]⟩) (fun _ => ["M"]) (fun _ => some [3])
            (some [0]) 2 7
          = UpgradeOutcome.err trace s := by
  have h0 : apply_stdlib_upgrade
      ⟨fun _ _ => .error .UNKNOWN_INVARIANT_VIOLATION_ERROR,
       fun _ _ _ => .ok ()⟩
      (fun _ => some ⟨[1]⟩) (fun _ => ["M"]) (fun _ => some [3])
      (some [0]) 2 7
    = .aborted [.revise_module [3] CORE_CODE_ADDRESS]
        "Failed to publish module" := rfl
  refine ⟨h0, ?_⟩
  rintro ⟨trace, s, h⟩
  rw [h0] at h
  exact UpgradeOutcome.noConfusion h

lemma publishModules_fail_at (engine : EngineBehavior)
    (serFn : String → List Nat) (done : List String) (m0 : String)
    (rest : List String) (e : StatusCode) (trace : List EngineCall)
    (hdone : ∀ m ∈ done,
      engine.revise_result (serFn m) CORE_CODE_ADDRESS = .ok ())
    (hfail : engine.revise_result (serFn m0) CORE_CODE_ADDRESS = .error e) :
    publishModules engine (fun m => some (serFn m)) (done ++ m0 :: rest)
        trace
      = .aborted (trace
          ++ done.map (fun m => .revise_module (serFn m) CORE_CODE_ADDRESS)
          ++ [.revise_module (serFn m0) CORE_CODE_ADDRESS])
        "Failed to publish module" := by
  induction done generalizing trace with
  | nil => simp [publishModules, hfail]
  | cons a as ih =>
    have ha := hdone a (List.mem_cons_self a as)
    have has : ∀ m ∈ as,
        engine.revise_result (serFn m) CORE_CODE_ADDRESS = .ok () :=
      fun m hm => hdone m (List.mem_cons_of_mem a hm)
    simp only [List.cons_append, publishModules, ha, List.append_eq]
    rw [ih (trace
      ++ [EngineCall.revise_module (serFn a) CORE_CODE_ADDRESS]) has]
    simp [List.append_assoc]

/-- Claim C9 as amended: a module publish failing at any position of the
imported stdlib (after any prefix of successful publishes), or a failed
payload reset, during `apply_stdlib_upgrade` at the trigger round is not
silently absorbed — it halts execution immediately as a fatal process abort
carrying the diagnostic message of the failed step (rather than being
returned as an ordinary per-transaction rejection, or as any status value at
all). -/
theorem apply_stdlib_upgrade_failure_aborts (engine : EngineBehavior)
    (bcsDeserialize : List Nat → Option UpgradePayloadResource)
    (import_stdlib : List Nat → List String) (serFn : String → List Nat)
    (blob : List Nat) (res : UpgradePayloadResource) (sender : Nat)
    (hdeser : bcsDeserialize blob = some res)
    (hnonempty : res.payload ≠ []) :
    (∀ done m0 rest e, import_stdlib res.payload = done ++ m0 :: rest →
      (∀ m ∈ done,
        engine.revise_result (serFn m) CORE_CODE_ADDRESS = .ok ()) →
      engine.revise_result (serFn m0) CORE_CODE_ADDRESS = .error e →
      apply_stdlib_upgrade engine bcsDeserialize import_stdlib
          (fun m => some (serFn m)) (some blob) 2 sender
        = .aborted (done.map
              (fun m => .revise_module (serFn m) CORE_CODE_ADDRESS)
            ++ [.revise_module (serFn m0) CORE_CODE_ADDRESS])
            "Failed to publish module")
    ∧ (∀ e, (∀ bytes addr, engine.revise_result bytes addr = .ok ()) →
      engine.execute_result UPGRADE_MODULE RESET_PAYLOAD
          [MoveValue.signer sender] = .error e →
      apply_stdlib_upgrade engine bcsDeserialize import_stdlib
          (fun m => some (serFn m)) (some blob) 2 sender
        = .aborted ((import_stdlib res.payload).map
              (fun m => .revise_module (serFn m) CORE_CODE_ADDRESS)
            ++ [.execute_function UPGRADE_MODULE RESET_PAYLOAD
                  [MoveValue.signer sender]])
            "Couldn't reset upgrade payload") := by
  have hlen : res.payload.length > 0 := List.length_pos.mpr hnonempty
  constructor
  · intro done m0 rest e himp hdone hfail
    simp [apply_stdlib_upgrade, get_upgrade_payload, hdeser, hlen, himp,
      publishModules_fail_at engine serFn done m0 rest e [] hdone hfail]
  · intro e hrev hfail
    simp [apply_stdlib_upgrade, get_upgrade_payload, hdeser, hlen,
      publishModules_all_ok engine serFn (import_stdlib res.payload) [] hrev,
      hfail]

/-- Closed witness for `apply_stdlib_upgrade_failure_aborts`: with two
modules, a publish that fails on the second module (after the first
published successfully) aborts with "Failed to publish module" carrying both
calls in the trace, and a concrete failing reset aborts with "Couldn't reset
upgrade payload". -/
theorem apply_stdlib_upgrade_failure_aborts_witness :
    apply_stdlib_upgrade
        ⟨fun bytes _ => if bytes = [4]
            then .error .UNKNOWN_INVARIANT_VIOLATION_ERROR else .ok (),
         fun _ _ _ => .ok ()⟩
        (fun _ => some ⟨[1]⟩) (fun _ => ["M1", "M2"])
        (fun m => some (if m = "M1" then [3] else [4])) (some [0]) 2 7
      = .aborted [.revise_module [3] CORE_CODE_ADDRESS,
          .revise_module [4] CORE_CODE_ADDRESS]
          "Failed to publish module"
    ∧ apply_stdlib_upgrade
        ⟨fun _ _ => .ok (),
         fun _ _ _ => .error .UNKNOWN_INVARIANT_VIOLATION_ERROR⟩
        (fun _ => some ⟨[1]⟩) (fun _ => ["M"]) (fun _ => some [3])
        (some [0]) 2 7
      = .aborted [.revise_module [3] CORE_CODE_ADDRESS,
          .execute_function UPGRADE_MODULE RESET_PAYLOAD
            [MoveValue.signer 7]]
          "Couldn't reset upgrade payload" := by
  constructor
  · exact (apply_stdlib_upgrade_failure_aborts
      ⟨fun bytes _ => if bytes = [4]
          then .error .UNKNOWN_INVARIANT_VIOLATION_ERROR else .ok (),
       fun _ _ _ => .ok ()⟩
      (fun _ => some ⟨[1]⟩) (fun _ => ["M1", "M2"])
      (fun m => if m = "M1" then [3] else [4]) [0] ⟨[1]⟩ 7
      rfl (by decide)).1 ["M1"] "M2" []
      .UNKNOWN_INVARIANT_VIOLATION_ERROR rfl
      (by
        intro m hm
        rcases List.mem_singleton.mp hm with rfl
        rfl)
      rfl
  · exact (apply_stdlib_upgrade_failure_aborts
      ⟨fun _ _ => .ok (),
       fun _ _ _ => .error .UNKNOWN_INVARIANT_VIOLATION_ERROR⟩
      (fun _ => some ⟨[1]⟩) (fun _ => ["M"]) (fun _ => [3]) [0] ⟨[1]⟩ 7
      rfl (by decide)).2 .UNKNOWN_INVARIANT_VIOLATION_ERROR
      (fun _ _ => rfl) rfl

/-- Claim C10: at the trigger round the payload resource must exist — with no
blob in the state view, `get_upgrade_payload` returns
`CURRENCY_INFO_DOES_NOT_EXIST` and `apply_stdlib_upgrade` fails with it (not
a no-op); with a blob that fails to deserialize, the error is
`RESOURCE_DOES_NOT_EXIST`. -/
theorem get_upgrade_payload_errors (engine : EngineBehavior)
    (bcsDeserialize : List Nat → Option UpgradePayloadResource)
    (import_stdlib : List Nat → List String)
    (serializeModule : String → Option (List Nat))
    (blob : List Nat) (sender : Nat) :
    get_upgrade_payload bcsDeserialize none
      = .error .CURRENCY_INFO_DOES_NOT_EXIST
    ∧ (bcsDeserialize blob = none →
        get_upgrade_payload bcsDeserialize (some blob)
          = .error .RESOURCE_DOES_NOT_EXIST)
    ∧ apply_stdlib_upgrade engine bcsDeserialize import_stdlib
        serializeModule none 2 sender
      = .err [] .CURRENCY_INFO_DOES_NOT_EXIST
    ∧ (bcsDeserialize blob = none →
        apply_stdlib_upgrade engine bcsDeserialize import_stdlib
          serializeModule (some blob) 2 sender
        = .err [] .RESOURCE_DOES_NOT_EXIST) := by
  refine ⟨rfl, ?_, rfl, ?_⟩
  · intro hnone
    simp [get_upgrade_payload, hnone]
  · intro hnone
    simp [apply_stdlib_upgrade, get_upgrade_payload, hnone]

/-- Closed witness for `get_upgrade_payload_errors`: with a concrete state
view holding no blob the error is `CURRENCY_INFO_DOES_NOT_EXIST`, and with a
blob that fails deserialization it is `RESOURCE_DOES_NOT_EXIST`. -/
theorem get_upgrade_payload_errors_witness :
    apply_stdlib_upgrade
        ⟨fun _ _ => .ok (), fun _ _ _ => .ok ()⟩
        (fun _ => none) (fun _ => ["M"]) (fun _ => some [1]) none 2 7
      = .err [] .CURRENCY_INFO_DOES_NOT_EXIST
    ∧ apply_stdlib_upgrade
        ⟨fun _ _ => .ok (), fun _ _ _ => .ok ()⟩
        (fun _ => none) (fun _ => ["M"]) (fun _ => some [1]) (some [0]) 2 7
      = .err [] .RESOURCE_DOES_NOT_EXIST := by
  have h := get_upgrade_payload_errors
    ⟨fun _ _ => .ok (), fun _ _ _ => .ok ()⟩
    (fun _ => none) (fun _ => ["M"]) (fun _ => some [1]) [0] 7
  exact ⟨h.2.2.1, h.2.2.2 rfl⟩

end Libra
